import Mathlib

/-!
Shallow embedding of the a2a-sensor-fusion prototypes.

The data-processing core of the repository is embedded here:
* the MCP normalization tool of prototype 3 (`mcp_server.normalize_sensor_data`)
  and the in-process tool of prototype 2 (`mcp_tool.data_normalization_tool`);
* the MCP validator of prototype 3 (`mcp_server.validate_sensor_data`);
* the dispatch, discovery and report-building phases of the orchestrators
  (`main_fusion_client.FusionAgent` of prototypes 2, 3 and 4).

Python floats are idealized: radar range and azimuth are rationals, the
trigonometric part of the coordinate transform lives in ℝ, and the
quality score and confidence are rationals.  Remote HTTP calls are modelled
by `Except`-valued arguments: `Except.ok` is a successful response,
`Except.error` a raised exception (timeout, connection failure, bad payload).
-/

/-- Radar sensor reading in polar form (the prototypes' `RadarData` model:
`range_meters`, `azimuth_degrees`).  The optional `timestamp` field is not
modelled; no verified property mentions it. -/
structure RadarData where
  range_meters : ℚ
  azimuth_degrees : ℚ

/-- Visual sensor reading (the prototypes' `VisualData` model:
`classification`, `certainty_percent`).  The optional `timestamp` field is
not modelled. -/
structure VisualData where
  classification : String
  certainty_percent : ℤ

/-- Normalized target record (the prototypes' `NormalizedTarget` model).
Coordinates are idealized as reals because they involve trigonometry;
confidence is a rational. -/
structure NormalizedTarget where
  x_pos : ℝ
  y_pos : ℝ
  target_type : String
  confidence : ℚ

/-- Degrees-to-radians conversion, `math.radians`. -/
noncomputable def radians (x : ℝ) : ℝ := x * Real.pi / 180

/-- Python `round(x, 2)` idealized over ℝ: round `x * 100` to the nearest
integer and divide back by 100. -/
noncomputable def round2 (x : ℝ) : ℝ := ((round (x * 100) : ℤ) : ℝ) / 100

/-- Python `round(x, 2)` over ℚ, for the confidence channel. -/
def round2q (x : ℚ) : ℚ := ((round (x * 100) : ℤ) : ℚ) / 100

/-- Embedding of `prototype_3/mcp_server.py::normalize_sensor_data`:
polar-to-Cartesian conversion, upper-cased classification, and
certainty scaled to [0,1], with `x_pos`, `y_pos` and `confidence`
rounded to 2 decimal places.  The `metadata` entry of the returned dict
(raw echo of the inputs plus constant strings) is not modelled. -/
noncomputable def normalize_sensor_data (radar_range_meters radar_azimuth_degrees : ℚ)
    (visual_classification : String) (visual_certainty_percent : ℤ) : NormalizedTarget :=
  let azimuth_rad : ℝ := radians (radar_azimuth_degrees : ℝ)
  let x_pos : ℝ := (radar_range_meters : ℝ) * Real.cos azimuth_rad
  let y_pos : ℝ := (radar_range_meters : ℝ) * Real.sin azimuth_rad
  let confidence : ℚ := (visual_certainty_percent : ℚ) / 100
  let target_type : String := visual_classification.toUpper
  { x_pos := round2 x_pos
    y_pos := round2 y_pos
    target_type := target_type
    confidence := round2q confidence }

/-- Embedding of `prototype_2/mcp_tool.py::data_normalization_tool`: same
transform as prototype 3's tool except that the confidence is NOT rounded. -/
noncomputable def data_normalization_tool (radar_data : RadarData)
    (visual_data : VisualData) : NormalizedTarget :=
  let azimuth_rad : ℝ := radians (radar_data.azimuth_degrees : ℝ)
  let x : ℝ := (radar_data.range_meters : ℝ) * Real.cos azimuth_rad
  let y : ℝ := (radar_data.range_meters : ℝ) * Real.sin azimuth_rad
  let confidence : ℚ := (visual_data.certainty_percent : ℚ) / 100
  let target_type : String := visual_data.classification.toUpper
  { x_pos := round2 x
    y_pos := round2 y
    target_type := target_type
    confidence := confidence }

/-- Validation outcome of `validate_sensor_data` (the returned dict). -/
structure ValidationResult where
  is_valid : Bool
  quality_score : ℚ
  warnings : List String
  recommendation : String

/-- Radar-range check of `validate_sensor_data`: warning pushed and
deduction taken for a negative range, else for a range beyond 10000 m. -/
def range_check (r : ℚ) : List String × ℚ :=
  if r < 0 then (["Negative radar range detected - invalid"], 50)
  else if r > 10000 then (["Radar range exceeds typical detection limit"], 10)
  else ([], 0)

/-- Azimuth check of `validate_sensor_data`: warning and deduction when the
azimuth is outside [0, 360]. -/
def azimuth_check (az : ℚ) : List String × ℚ :=
  if ¬ (0 ≤ az ∧ az ≤ 360) then (["Azimuth outside valid range (0-360 degrees)"], 30)
  else ([], 0)

/-- Visual-certainty check of `validate_sensor_data`: warning and deduction
for certainty below 50, else below 70. -/
def certainty_check (c : ℤ) : List String × ℚ :=
  if c < 50 then (["Low visual classification confidence"], 20)
  else if c < 70 then (["Moderate visual classification confidence"], 10)
  else ([], 0)

/-- Warnings accumulated by `validate_sensor_data`, in source order. -/
def collected_warnings (r az : ℚ) (c : ℤ) : List String :=
  (range_check r).1 ++ (azimuth_check az).1 ++ (certainty_check c).1

/-- Quality score of `validate_sensor_data` before the `max(0, ...)` clamp:
starts at 100.0 and takes the three deductions in source order. -/
def raw_quality_score (r az : ℚ) (c : ℤ) : ℚ :=
  100 - (range_check r).2 - (azimuth_check az).2 - (certainty_check c).2

/-- Embedding of `prototype_3/mcp_server.py::validate_sensor_data`: the
returned dict, with `is_valid = (len(warnings) == 0 or quality_score > 30)`,
the clamped score `max(0, quality_score)`, the warning list, and the
recommendation computed from the un-clamped score. -/
def validate_sensor_data (radar_range_meters radar_azimuth_degrees : ℚ)
    (visual_certainty_percent : ℤ) : ValidationResult :=
  let ws := collected_warnings radar_range_meters radar_azimuth_degrees visual_certainty_percent
  let score := raw_quality_score radar_range_meters radar_azimuth_degrees visual_certainty_percent
  { is_valid := (ws.length == 0) || decide (score > 30)
    quality_score := max 0 score
    warnings := ws
    recommendation := if score > 70 then "ACCEPT" else if score > 30 then "REVIEW" else "REJECT" }

/-- Boolean test that the character list `needle` is an initial segment of
`hay` (helper for the substring test below). -/
def chars_start : List Char → List Char → Bool
  | [], _ => true
  | _ :: _, [] => false
  | a :: as, b :: bs => a == b && chars_start as bs

/-- Boolean test that the character list `needle` occurs contiguously
somewhere in the second list. -/
def chars_sub (needle : List Char) : List Char → Bool
  | [] => chars_start needle []
  | b :: bs => chars_start needle (b :: bs) || chars_sub needle bs

/-- Case-sensitive substring test: does `hay` include `needle`? -/
def strIncludes (hay needle : String) : Bool := chars_sub needle.toList hay.toList

/-- One declared skill of an agent card (id and display name; the
description and tag fields are not modelled, no property mentions them). -/
structure AgentSkill where
  id : String
  name : String

/-- Agent capability card as consumed by discovery (`AgentCard`): identity
plus declared skills.  Endpoint and capability flags are not modelled. -/
structure AgentCard where
  name : String
  version : String
  skills : List AgentSkill

/-- In-memory agent registry: association list from agent id to card. -/
def Registry : Type := List (String × AgentCard)

/-- Modelled from the spec: `AgentRegistry.register_agent` of prototype 3's
`models.py`, which is not in the sources.  Spec section 3: a mapping from
agent-id to card; section 4.1: re-registration under the same agent-id
replaces the older card.  Modelled as filtering out the old binding and
appending the new one. -/
def register_agent (reg : Registry) (agentId : String) (card : AgentCard) : Registry :=
  List.filter (fun p => p.1 != agentId) reg ++ [(agentId, card)]

/-- Modelled from the spec: `AgentRegistry.find_agents_by_skill` of
prototype 3's `models.py`, which is not in the sources.  Spec section 4.1:
presence/absence of the declared skill id, nothing richer. -/
def find_agents_by_skill (reg : Registry) (skillId : String) : Registry :=
  List.filter (fun p => p.2.skills.any (fun s => s.id == skillId)) reg

/-- Outcome of prototype 3's discovery phase: the populated registry and
the warnings printed for missing required skills. -/
structure DiscoveryOutcome where
  registry : Registry
  warnings : List String

/-- Warning surfaced when no registered agent offers radar detection. -/
def radar_skill_warning : String := "Warning: No agents with radar_detection skill found"

/-- Warning surfaced when no registered agent offers visual classification. -/
def visual_skill_warning : String := "Warning: No agents with visual_classification skill found"

/-- Embedding of `prototype_3/main_fusion_client.py::FusionAgent.discover_agents`.
Each `/card` fetch is modelled by an `Except`-valued argument.  The source
wraps each fetch in its own try/except: a failure is logged and skipped, the
other agent is still queried and registered, and afterwards a warning is
surfaced for each domain-required skill with zero registered providers. -/
def discover_agents_p3 (radarResp visualResp : Except String AgentCard) : DiscoveryOutcome :=
  let reg1 : Registry :=
    match radarResp with
    | Except.ok card => register_agent [] "radar_agent" card
    | Except.error _ => []
  let reg2 : Registry :=
    match visualResp with
    | Except.ok card => register_agent reg1 "visual_agent" card
    | Except.error _ => reg1
  let ws : List String :=
    (if (find_agents_by_skill reg2 "radar_detection").isEmpty then [radar_skill_warning] else []) ++
    (if (find_agents_by_skill reg2 "visual_classification").isEmpty then [visual_skill_warning] else [])
  { registry := reg2, warnings := ws }

/-- Embedding of `prototype_4/main_fusion_client.py::FusionAgent.discover_agents`.
The source catches each resolver failure only to log it and then re-raises
(`raise`), so the first failure propagates out of discovery: the radar agent
is resolved first, and on its failure the visual agent is never attempted. -/
def discover_agents_p4 (radarResp visualResp : Except String AgentCard) :
    Except String (AgentCard × AgentCard) := do
  let radar_card ← radarResp
  let visual_card ← visualResp
  return (radar_card, visual_card)

/-- Embedding of the task-dispatch phase of `FusionAgent.execute_fusion`
(prototype 2 lines 50-65, prototype 4 lines 218-220): the radar agent is
awaited first, then the visual agent, with no exception handling around
either call, so a failure propagates immediately. -/
def dispatch_sensors (radarResp : Except String RadarData)
    (visualResp : Except String VisualData) : Except String (RadarData × VisualData) := do
  let radar_data ← radarResp
  let visual_data ← visualResp
  return (radar_data, visual_data)

/-- Final artifact of prototype 3's run (`A2AArtifact`): report id and the
normalized targets.  The templated summary string (float formatting) is not
modelled; no verified property mentions it. -/
structure A2AArtifact where
  fusion_id : String
  targets : List NormalizedTarget

/-- Post-dispatch behaviour of prototype 3's `execute_fusion`: the REJECT
warning flag and the produced artifact. -/
structure FusionRunP3 where
  rejectWarned : Bool
  artifact : A2AArtifact

/-- Embedding of the validate/normalize/report phase of
`prototype_3/main_fusion_client.py::FusionAgent.execute_fusion` (lines
143-177).  The validator runs first; a REJECT recommendation only triggers a
logged warning (modelled by `rejectWarned`); normalization runs
unconditionally and the artifact is built from its output.  The report id
(an uuid) is passed in as a parameter. -/
noncomputable def execute_fusion_p3 (fusionId : String) (radar_data : RadarData)
    (visual_data : VisualData) : FusionRunP3 :=
  let validation := validate_sensor_data radar_data.range_meters radar_data.azimuth_degrees
    visual_data.certainty_percent
  let warned : Bool := validation.recommendation == "REJECT"
  let normalized_target := normalize_sensor_data radar_data.range_meters
    radar_data.azimuth_degrees visual_data.classification visual_data.certainty_percent
  { rejectWarned := warned
    artifact := { fusion_id := fusionId, targets := [normalized_target] } }

/-- Final report of prototype 4 (`models.FusionReport`).  The templated
summary string is not modelled; no verified property mentions it. -/
structure FusionReport where
  fusion_id : String
  sector_id : String
  targets : List NormalizedTarget
  quality_score : ℚ
  timestamp : String

/-- Embedding of the validate/normalize/report phase of
`prototype_4/main_fusion_client.py::FusionAgent.execute_fusion` (lines
232-262): validation then normalization, and a `FusionReport` whose
`quality_score` field is `validation["quality_score"]` copied through
unchanged.  The report id and timestamp are passed in as parameters. -/
noncomputable def execute_fusion_p4 (fusionId timestamp sector_id : String)
    (radar_data : RadarData) (visual_data : VisualData) : FusionReport :=
  let validation := validate_sensor_data radar_data.range_meters radar_data.azimuth_degrees
    visual_data.certainty_percent
  let normalized_target := normalize_sensor_data radar_data.range_meters
    radar_data.azimuth_degrees visual_data.classification visual_data.certainty_percent
  { fusion_id := fusionId
    sector_id := sector_id
    targets := [normalized_target]
    quality_score := validation.quality_score
    timestamp := timestamp }

/-- Rounding an integer-over-100 rational to 2 decimal places is the
identity: the value already has at most 2 decimal places. -/
theorem round2q_int_div (n : ℤ) : round2q ((n : ℚ) / 100) = (n : ℚ) / 100 := by
  unfold round2q
  rw [div_mul_cancel₀ _ (by norm_num : (100 : ℚ) ≠ 0), round_intCast]

/-- The raw quality score equals 100 minus the sum of four independent
deductions; in particular the two range deductions never fire together. -/
theorem raw_quality_score_additive (r az : ℚ) (c : ℤ) :
    raw_quality_score r az c =
      100 - ((if r < 0 then (50 : ℚ) else 0) + (if r > 10000 then (10 : ℚ) else 0) +
        (if ¬ (0 ≤ az ∧ az ≤ 360) then (30 : ℚ) else 0) +
        (if c < 50 then (20 : ℚ) else if c < 70 then (10 : ℚ) else 0)) := by
  unfold raw_quality_score range_check azimuth_check certainty_check
  split_ifs <;> (dsimp only; linarith)

/-- The raw quality score is never negative. -/
theorem raw_quality_score_nonneg (r az : ℚ) (c : ℤ) : 0 ≤ raw_quality_score r az c := by
  unfold raw_quality_score range_check azimuth_check certainty_check
  split_ifs <;> (dsimp only; norm_num)

/-- The raw quality score never exceeds 100. -/
theorem raw_quality_score_le_100 (r az : ℚ) (c : ℤ) : raw_quality_score r az c ≤ 100 := by
  unfold raw_quality_score range_check azimuth_check certainty_check
  split_ifs <;> (dsimp only; norm_num)

/-- The clamp `max(0, score)` in the returned dict never changes the score. -/
theorem quality_score_eq_raw (r az : ℚ) (c : ℤ) :
    (validate_sensor_data r az c).quality_score = raw_quality_score r az c :=
  max_eq_right (raw_quality_score_nonneg r az c)

/-- The recommendation field, unfolded: it is computed from the un-clamped
score. -/
theorem recommendation_def (r az : ℚ) (c : ℤ) :
    (validate_sensor_data r az c).recommendation =
      (if raw_quality_score r az c > 70 then "ACCEPT"
       else if raw_quality_score r az c > 30 then "REVIEW" else "REJECT") := rfl

/-- Claim C1: the prototype-3 normalizer returns x and y from the standard
polar-to-Cartesian transform rounded to 2 decimal places, the upper-cased
classification, and the certainty scaled to [0,1] rounded to 2 decimal
places; and the confidence lands in [0,1] whenever the certainty is in
[0,100]. -/
theorem normalize_sensor_data_spec (r az : ℚ) (cls : String) (cert : ℤ) :
    (normalize_sensor_data r az cls cert).x_pos = round2 ((r : ℝ) * Real.cos (radians (az : ℝ)))
  ∧ (normalize_sensor_data r az cls cert).y_pos = round2 ((r : ℝ) * Real.sin (radians (az : ℝ)))
  ∧ (normalize_sensor_data r az cls cert).target_type = cls.toUpper
  ∧ (normalize_sensor_data r az cls cert).confidence = round2q ((cert : ℚ) / 100)
  ∧ (0 ≤ cert → cert ≤ 100 →
      0 ≤ (normalize_sensor_data r az cls cert).confidence ∧
        (normalize_sensor_data r az cls cert).confidence ≤ 1) := by
  refine ⟨rfl, rfl, rfl, rfl, ?_⟩
  intro h0 h1
  have hconf : (normalize_sensor_data r az cls cert).confidence = (cert : ℚ) / 100 :=
    round2q_int_div cert
  rw [hconf]
  constructor
  · exact div_nonneg (by exact_mod_cast h0) (by norm_num)
  · rw [div_le_one (by norm_num : (0 : ℚ) < 100)]
    exact_mod_cast h1

/-- Witness for C1 at the end-to-end example input of the spec:
range 1000, azimuth 90, classification drone, certainty 80. -/
theorem normalize_sensor_data_spec_witness :
    0 ≤ (80 : ℤ) ∧ (80 : ℤ) ≤ 100 ∧
      (0 ≤ (normalize_sensor_data 1000 90 "drone" 80).confidence ∧
        (normalize_sensor_data 1000 90 "drone" 80).confidence ≤ 1) :=
  ⟨by decide, by decide,
    (normalize_sensor_data_spec 1000 90 "drone" 80).2.2.2.2 (by decide) (by decide)⟩

/-- Claim C9: on any readings with integer certainty in [0,100], prototype
2's tool and prototype 3's tool agree on every field: the only textual
difference, the missing rounding of the confidence in prototype 2, never
changes the value because certainty/100 already has at most 2 decimal
places. -/
theorem data_normalization_tool_refines (radar_data : RadarData) (visual_data : VisualData)
    (h0 : 0 ≤ visual_data.certainty_percent) (h1 : visual_data.certainty_percent ≤ 100) :
    data_normalization_tool radar_data visual_data =
      normalize_sensor_data radar_data.range_meters radar_data.azimuth_degrees
        visual_data.classification visual_data.certainty_percent := by
  simp only [data_normalization_tool, normalize_sensor_data, round2q_int_div]

/-- Witness for C9 at radar (1000 m, 90°) and visual (drone, 80%). -/
theorem data_normalization_tool_refines_witness :
    0 ≤ (VisualData.mk "drone" 80).certainty_percent ∧
      (VisualData.mk "drone" 80).certainty_percent ≤ 100 ∧
      data_normalization_tool (RadarData.mk 1000 90) (VisualData.mk "drone" 80) =
        normalize_sensor_data 1000 90 "drone" 80 :=
  ⟨by decide, by decide,
    data_normalization_tool_refines (RadarData.mk 1000 90) (VisualData.mk "drone" 80)
      (by decide) (by decide)⟩

/-- A reading that produces no warnings takes no deductions, so its raw
score is exactly 100. -/
theorem warnings_empty_score (r az : ℚ) (c : ℤ) :
    collected_warnings r az c = [] → raw_quality_score r az c = 100 := by
  unfold collected_warnings raw_quality_score range_check azimuth_check certainty_check
  split_ifs <;> (dsimp only; intro h; first | (exact List.noConfusion h) | norm_num)

/-- Claim C2: the quality score is 100 minus independent deductions (50 for
negative range, 10 for range beyond 10000, 30 for azimuth outside [0,360],
20 for certainty below 50 else 10 below 70), floored at 0; and the
recommendation is ACCEPT exactly when the score exceeds 70, REVIEW exactly
when it lies in (30, 70], and REJECT exactly when it is at most 30. -/
theorem validate_sensor_data_scoring (r az : ℚ) (c : ℤ) :
    (validate_sensor_data r az c).quality_score =
      max 0 (100 - ((if r < 0 then (50 : ℚ) else 0) + (if r > 10000 then (10 : ℚ) else 0) +
        (if ¬ (0 ≤ az ∧ az ≤ 360) then (30 : ℚ) else 0) +
        (if c < 50 then (20 : ℚ) else if c < 70 then (10 : ℚ) else 0)))
  ∧ ((validate_sensor_data r az c).recommendation = "ACCEPT" ↔
      70 < (validate_sensor_data r az c).quality_score)
  ∧ ((validate_sensor_data r az c).recommendation = "REVIEW" ↔
      (30 < (validate_sensor_data r az c).quality_score ∧
        (validate_sensor_data r az c).quality_score ≤ 70))
  ∧ ((validate_sensor_data r az c).recommendation = "REJECT" ↔
      (validate_sensor_data r az c).quality_score ≤ 30) := by
  have hq := quality_score_eq_raw r az c
  have hrec := recommendation_def r az c
  refine ⟨?_, ?_, ?_, ?_⟩
  · rw [hq, ← raw_quality_score_additive]
    exact (max_eq_right (raw_quality_score_nonneg r az c)).symm
  · rw [hq, hrec]
    by_cases h70 : raw_quality_score r az c > 70
    · simp only [if_pos h70]
      exact ⟨fun _ => h70, fun _ => by trivial⟩
    · by_cases h30 : raw_quality_score r az c > 30
      · simp only [if_neg h70, if_pos h30]
        exact ⟨fun h => absurd h (by decide), fun h => absurd h h70⟩
      · simp only [if_neg h70, if_neg h30]
        exact ⟨fun h => absurd h (by decide), fun h => absurd h h70⟩
  · rw [hq, hrec]
    by_cases h70 : raw_quality_score r az c > 70
    · simp only [if_pos h70]
      refine ⟨fun h => absurd h (by decide), fun h => ?_⟩
      exact absurd h70 (not_lt.mpr h.2)
    · by_cases h30 : raw_quality_score r az c > 30
      · simp only [if_neg h70, if_pos h30]
        exact ⟨fun _ => ⟨h30, le_of_not_lt h70⟩, fun _ => by trivial⟩
      · simp only [if_neg h70, if_neg h30]
        exact ⟨fun h => absurd h (by decide), fun h => absurd h.1 h30⟩
  · rw [hq, hrec]
    by_cases h70 : raw_quality_score r az c > 70
    · simp only [if_pos h70]
      refine ⟨fun h => absurd h (by decide), fun h => ?_⟩
      exact absurd h (not_le.mpr (lt_trans (by norm_num) h70))
    · by_cases h30 : raw_quality_score r az c > 30
      · simp only [if_neg h70, if_pos h30]
        exact ⟨fun h => absurd h (by decide), fun h => absurd h (not_le.mpr h30)⟩
      · simp only [if_neg h70, if_neg h30]
        exact ⟨fun _ => le_of_not_lt h30, fun _ => by trivial⟩

/-- Claim C5: the returned `is_valid` flag is true exactly when there are no
warnings or the quality score exceeds 30; it is false exactly when the
recommendation is REJECT; and a reading with no warnings always scores
100. -/
theorem validate_is_valid_iff (r az : ℚ) (c : ℤ) :
    ((validate_sensor_data r az c).is_valid = true ↔
      ((validate_sensor_data r az c).warnings = [] ∨
        30 < (validate_sensor_data r az c).quality_score))
  ∧ ((validate_sensor_data r az c).is_valid = false ↔
      (validate_sensor_data r az c).recommendation = "REJECT")
  ∧ ((validate_sensor_data r az c).warnings = [] →
      (validate_sensor_data r az c).quality_score = 100) := by
  have hq := quality_score_eq_raw r az c
  have hnn := raw_quality_score_nonneg r az c
  refine ⟨?_, ?_, ?_⟩
  · rw [hq]
    show (((collected_warnings r az c).length == 0) ||
      decide (raw_quality_score r az c > 30)) = true ↔ _
    simp only [Bool.or_eq_true, beq_iff_eq, List.length_eq_zero, decide_eq_true_eq]
    exact Iff.rfl
  · by_cases h30 : raw_quality_score r az c > 30
    · have hvalid : (validate_sensor_data r az c).is_valid = true := by
        show (((collected_warnings r az c).length == 0) ||
          decide (raw_quality_score r az c > 30)) = true
        have : decide (raw_quality_score r az c > 30) = true := by simpa using h30
        rw [this, Bool.or_true]
      rw [hvalid, recommendation_def]
      by_cases h70 : raw_quality_score r az c > 70
      · simp only [if_pos h70]
        exact ⟨fun h => Bool.noConfusion h, fun h => absurd h (by decide)⟩
      · simp only [if_neg h70, if_pos h30]
        exact ⟨fun h => Bool.noConfusion h, fun h => absurd h (by decide)⟩
    · have hws : ¬ collected_warnings r az c = [] := by
        intro hempty
        exact h30 (by rw [warnings_empty_score r az c hempty]; norm_num)
      have hlen : ((collected_warnings r az c).length == 0) = false := by
        simpa [List.length_eq_zero] using hws
      have hdec : decide (raw_quality_score r az c > 30) = false := by
        simpa using h30
      have hvalid : (validate_sensor_data r az c).is_valid = false := by
        show (((collected_warnings r az c).length == 0) ||
          decide (raw_quality_score r az c > 30)) = false
        rw [hlen, hdec]
        rfl
      have h70 : ¬ raw_quality_score r az c > 70 := fun h => h30 (by linarith)
      rw [hvalid, recommendation_def]
      simp only [if_neg h70, if_neg h30]
  · intro hempty
    rw [hq]
    exact warnings_empty_score r az c hempty

/-- Witness for C5 at the clean reading range 500, azimuth 100,
certainty 100: no warnings, so the theorem's last clause gives score 100. -/
theorem validate_is_valid_iff_witness :
    (validate_sensor_data 500 100 100).warnings = [] ∧
      (validate_sensor_data 500 100 100).quality_score = 100 :=
  ⟨by decide, (validate_is_valid_iff 500 100 100).2.2 (by decide)⟩

/-- Claim C10: the raw quality score always lies in [0,100] (the two range
deductions are mutually exclusive, so the deductions sum to at most 100),
the `max(0, score)` floor never changes the value, the returned score
equals the raw score and stays in [0,100], and the recommendation computed
from the un-clamped score agrees with one computed from the returned
clamped score. -/
theorem validate_quality_score_invariant (r az : ℚ) (c : ℤ) :
    (0 ≤ raw_quality_score r az c ∧ raw_quality_score r az c ≤ 100)
  ∧ ((if r < 0 then (50 : ℚ) else 0) + (if r > 10000 then (10 : ℚ) else 0) =
      (if r < 0 then (50 : ℚ) else if r > 10000 then (10 : ℚ) else 0))
  ∧ max 0 (raw_quality_score r az c) = raw_quality_score r az c
  ∧ (validate_sensor_data r az c).quality_score = raw_quality_score r az c
  ∧ (0 ≤ (validate_sensor_data r az c).quality_score ∧
      (validate_sensor_data r az c).quality_score ≤ 100)
  ∧ (validate_sensor_data r az c).recommendation =
      (if 70 < (validate_sensor_data r az c).quality_score then "ACCEPT"
       else if 30 < (validate_sensor_data r az c).quality_score then "REVIEW"
       else "REJECT") := by
  have h0 := raw_quality_score_nonneg r az c
  have h100 := raw_quality_score_le_100 r az c
  have hq := quality_score_eq_raw r az c
  refine ⟨⟨h0, h100⟩, ?_, max_eq_right h0, hq, ?_, ?_⟩
  · split_ifs <;> linarith
  · rw [hq]
    exact ⟨h0, h100⟩
  · rw [recommendation_def, hq]

/-- Claim C6 counterexample: at range -1, azimuth 0, certainty 100 the only
warning is the exact string "Negative radar range detected - invalid", and
no warning in the list includes the text "negative range" (the claimed
substring does not occur, even though the warning is about a negative
range). -/
theorem validate_negative_range_text_counterexample :
    (validate_sensor_data (-1) 0 100).warnings = ["Negative radar range detected - invalid"]
  ∧ ((validate_sensor_data (-1) 0 100).warnings.any
      (fun w => strIncludes w "negative range")) = false := by
  exact ⟨by decide, by decide⟩

/-- Claim C6 as amended: the warning includes the text "Negative radar
range" (not "negative range"); the scores, the second input's warning list
and both recommendations are as claimed. -/
theorem validate_concrete_cases :
    (validate_sensor_data (-1) 0 100).quality_score = 50
  ∧ ((validate_sensor_data (-1) 0 100).warnings.any
      (fun w => strIncludes w "Negative radar range")) = true
  ∧ (validate_sensor_data (-1) 0 100).recommendation = "REVIEW"
  ∧ (validate_sensor_data 500 400 40).warnings =
      ["Azimuth outside valid range (0-360 degrees)", "Low visual classification confidence"]
  ∧ (validate_sensor_data 500 400 40).quality_score = 50
  ∧ (validate_sensor_data 500 400 40).recommendation = "REVIEW" := by
  refine ⟨?_, by decide, ?_, by decide, ?_, ?_⟩ <;>
    norm_num [validate_sensor_data, raw_quality_score, collected_warnings, range_check,
      azimuth_check, certainty_check, max_def]

/-- Claim C3 counterexample: in the dispatch phase of `execute_fusion`
(prototypes 2 and 4), when one sensor call raises, the whole dispatch
evaluates to that error: the surviving agent's reading is dropped, no
per-agent DispatchError record exists, and the failure aborts the run. -/
theorem dispatch_failure_aborts_counterexample :
    dispatch_sensors (Except.error "ReadTimeout") (Except.ok (VisualData.mk "drone" 80)) =
      Except.error "ReadTimeout"
  ∧ dispatch_sensors (Except.ok (RadarData.mk 1000 90)) (Except.error "ReadTimeout") =
      Except.error "ReadTimeout" := ⟨rfl, rfl⟩

/-- Claim C3 as amended: a failure of either sensor call propagates out of
the dispatch and aborts the fusion run (the radar call is made first, so a
radar failure also skips the visual call); both readings are returned only
when both calls succeed, and no per-agent error record is produced. -/
theorem dispatch_sensors_propagates :
    (∀ (e : String) (visualResp : Except String VisualData),
      dispatch_sensors (Except.error e) visualResp = Except.error e)
  ∧ (∀ (radar_data : RadarData) (e : String),
      dispatch_sensors (Except.ok radar_data) (Except.error e) = Except.error e)
  ∧ (∀ (radar_data : RadarData) (visual_data : VisualData),
      dispatch_sensors (Except.ok radar_data) (Except.ok visual_data) =
        Except.ok (radar_data, visual_data)) :=
  ⟨fun _ _ => rfl, fun _ _ => rfl, fun _ _ => rfl⟩

/-- Claim C4 counterexample: prototype 4's discovery re-raises the first
failure, so a radar discovery failure aborts the whole discovery even
though the visual agent's card is available: the run does not complete with
the surviving subset. -/
theorem discovery_p4_aborts_counterexample :
    discover_agents_p4 (Except.error "Connection refused")
      (Except.ok (AgentCard.mk "Visual Sensor Agent" "1.0.0"
        [AgentSkill.mk "visual_classification" "Visual Classification"])) =
      Except.error "Connection refused" := rfl

/-- The radar and visual skill warnings are distinct strings. -/
theorem skill_warnings_distinct : radar_skill_warning ≠ visual_skill_warning := by decide

/-- Membership of the first of two distinct warning strings in the
concatenation of their two conditional singleton lists mirrors its own
condition. -/
theorem mem_ite_warning_pair (b1 b2 : Bool) (w1 w2 : String) (hne : w1 ≠ w2) :
    (w1 ∈ (if b1 then [w1] else []) ++ (if b2 then [w2] else [])) ↔ b1 = true := by
  cases b1 <;> cases b2 <;> simp [hne]

/-- Membership of the second of two distinct warning strings in the
concatenation of their two conditional singleton lists mirrors its own
condition. -/
theorem mem_ite_warning_pair_snd (b1 b2 : Bool) (w1 w2 : String) (hne : w1 ≠ w2) :
    (w2 ∈ (if b1 then [w1] else []) ++ (if b2 then [w2] else [])) ↔ b2 = true := by
  cases b1 <;> cases b2 <;> simp [Ne.symm hne]

/-- Claim C4 as amended: in prototype 3, a discovery failure for one agent
leaves the other agent discovered and registered, and a warning is surfaced
exactly when a domain-required skill has zero registered providers; in
prototype 4, a discovery failure for either agent propagates and aborts
the discovery (a radar failure before the visual agent is attempted, a
visual failure after the radar card is resolved and then discarded). -/
theorem discovery_isolation_p3_abort_p4 :
    (∀ (e : String) (vc : AgentCard),
      (discover_agents_p3 (Except.error e) (Except.ok vc)).registry = [("visual_agent", vc)])
  ∧ (∀ (e : String) (rc : AgentCard),
      (discover_agents_p3 (Except.ok rc) (Except.error e)).registry = [("radar_agent", rc)])
  ∧ (∀ (radarResp visualResp : Except String AgentCard),
      (radar_skill_warning ∈ (discover_agents_p3 radarResp visualResp).warnings ↔
        (find_agents_by_skill (discover_agents_p3 radarResp visualResp).registry
          "radar_detection").isEmpty = true))
  ∧ (∀ (radarResp visualResp : Except String AgentCard),
      (visual_skill_warning ∈ (discover_agents_p3 radarResp visualResp).warnings ↔
        (find_agents_by_skill (discover_agents_p3 radarResp visualResp).registry
          "visual_classification").isEmpty = true))
  ∧ (∀ (e : String) (visualResp : Except String AgentCard),
      discover_agents_p4 (Except.error e) visualResp = Except.error e)
  ∧ (∀ (rc : AgentCard) (e : String),
      discover_agents_p4 (Except.ok rc) (Except.error e) = Except.error e) := by
  refine ⟨?_, ?_, ?_, ?_, fun e v => rfl, fun rc e => rfl⟩
  · intro e vc
    simp [discover_agents_p3, register_agent]
  · intro e rc
    simp [discover_agents_p3, register_agent]
  · intro radarResp visualResp
    exact mem_ite_warning_pair _ _ _ _ skill_warnings_distinct
  · intro radarResp visualResp
    exact mem_ite_warning_pair_snd _ _ _ _ skill_warnings_distinct

/-- Claim C7: the orchestrator of prototype 3 invokes the normalizer on
every run, whatever the validation outcome: the artifact always contains
exactly the normalized target, and a REJECT recommendation only sets the
logged-warning flag. -/
theorem normalization_unconditional (fusionId : String) (radar_data : RadarData)
    (visual_data : VisualData) :
    (execute_fusion_p3 fusionId radar_data visual_data).artifact.targets =
      [normalize_sensor_data radar_data.range_meters radar_data.azimuth_degrees
        visual_data.classification visual_data.certainty_percent]
  ∧ (execute_fusion_p3 fusionId radar_data visual_data).rejectWarned =
      ((validate_sensor_data radar_data.range_meters radar_data.azimuth_degrees
        visual_data.certainty_percent).recommendation == "REJECT") := ⟨rfl, rfl⟩

/-- Claim C8: prototype 4's report builder copies the validator's quality
score into the FusionReport unchanged. -/
theorem report_quality_score_unchanged (fusionId timestamp sector_id : String)
    (radar_data : RadarData) (visual_data : VisualData) :
    (execute_fusion_p4 fusionId timestamp sector_id radar_data visual_data).quality_score =
      (validate_sensor_data radar_data.range_meters radar_data.azimuth_degrees
        visual_data.certainty_percent).quality_score := rfl
